import Mathlib

/-!
Shallow embedding of the FlowState cash-flow engine (src/app.py and
src/bank_ai.py) and verification of its specification.

Modelling conventions:
* The projection/scenario pipeline manipulates `datetime.date` values only
  through ordering, day-differences and day-offsets, so pipeline dates are
  modelled as `Int` day numbers; `datetime.now().date()` is an explicit
  `today : Int` parameter.
* Monetary values are modelled as `Int`.
* Persistence (`save_data`/`load_data`) serialises dates as `YYYY-MM-DD`
  strings, so the store layer uses a calendar `Date` structure together with
  faithful format/parse functions.
* Python exceptions of the store operations are modelled with `Except`.
-/

/-- A transaction row of the `transactions_df` DataFrame, as used by the
scenario/projection/health pipeline (dates as day numbers). -/
structure Txn where
  id : Int
  type : String
  amount : Int
  date : Int
  description : String
  status : String
  probability : Int
deriving DecidableEq

/-- One row of the projection DataFrame built by
`calculate_cash_flow_projection`. -/
structure ProjPoint where
  date : Int
  balance : Int
  daily_income : Int
  daily_expenses : Int
  net_flow : Int
deriving DecidableEq

/-- Default projection point (used only as the `getD` fallback in statements). -/
def pdef : ProjPoint := ⟨0, 0, 0, 0, 0⟩

/-- The per-row effect of the "Payment Delays" scenario:
`df_scenario.loc[mask, 'date'] = ... + timedelta(days=delay_days)` where
`mask = (type == 'income') & (status == 'pending')`. -/
def delayTxn (delay_days : Int) (t : Txn) : Txn :=
  if t.type == "income" && t.status == "pending" then
    { t with date := t.date + delay_days }
  else t

/-- The synthetic what-if expense row appended by `apply_scenarios` when
`what_if_expense > 0`. -/
def whatIfTxn (today : Int) (what_if_expense : Int) : Txn :=
  { id := 9999, type := "expense", amount := what_if_expense,
    date := today + 3, description := "What-If Expense",
    status := "projected", probability := 100 }

/-- `apply_scenarios(df, scenario_type, delay_days, what_if_expense)` from
src/app.py.  An empty DataFrame is returned unchanged before either scenario
modification; otherwise pending income is delayed under "Payment Delays",
the synthetic expense is appended when `what_if_expense > 0`, and the result
is sorted by date (`sort_values('date')`). -/
def apply_scenarios (today : Int) (df : List Txn) (scenario_type : String)
    (delay_days : Int) (what_if_expense : Int) : List Txn :=
  if df.isEmpty then df
  else
    let df1 := if scenario_type == "Payment Delays"
      then df.map (delayTxn delay_days) else df
    let df2 := if 0 < what_if_expense
      then df1 ++ [whatIfTxn today what_if_expense] else df1
    List.insertionSort (fun a b => a.date ≤ b.date) df2

/-- `day_transactions[day_transactions['type'] == 'income']['amount'].sum()`. -/
def dailyIncome (df : List Txn) (d : Int) : Int :=
  ((df.filter (fun t => t.date == d && t.type == "income")).map Txn.amount).sum

/-- `day_transactions[day_transactions['type'] == 'expense']['amount'].sum()`. -/
def dailyExpenses (df : List Txn) (d : Int) : Int :=
  ((df.filter (fun t => t.date == d && t.type == "expense")).map Txn.amount).sum

/-- The daily loop of `calculate_cash_flow_projection`: starting at day `d`
with running balance `bal`, emit `n` consecutive daily points, carrying the
balance across iterations. -/
def projectDays (df : List Txn) : Nat → Int → Int → List ProjPoint
  | 0, _, _ => []
  | n + 1, d, bal =>
    let inc := dailyIncome df d
    let expd := dailyExpenses df d
    let nf := inc - expd
    ⟨d, bal + nf, inc, expd, nf⟩ :: projectDays df n (d + 1) (bal + nf)

/-- `df['date'].min()` for a non-empty DataFrame (0 is an unused fallback). -/
def minDate : List Txn → Int
  | [] => 0
  | t :: ts => ts.foldl (fun a x => min a x.date) t.date

/-- `df['date'].max()` for a non-empty DataFrame (0 is an unused fallback). -/
def maxDate : List Txn → Int
  | [] => 0
  | t :: ts => ts.foldl (fun a x => max a x.date) t.date

/-- `calculate_cash_flow_projection(df, starting_balance)` from src/app.py.
For an empty DataFrame: a single today-point.  Otherwise: a leading
today-point with the starting balance, then one point per calendar day of
`pd.date_range(min_date, max_date)` (`(max-min)+1` days; the model's
`(max - min + 1).toNat` also matches the empty `date_range` when
`max < min`, a case that cannot arise for the min/max of one list).
The `pd.isna` guard of the source is unreachable here since model dates are
always valid. -/
def calculate_cash_flow_projection (today : Int) (df : List Txn)
    (starting_balance : Int) : List ProjPoint :=
  if df = [] then
    [⟨today, starting_balance, 0, 0, 0⟩]
  else
    ⟨today, starting_balance, 0, 0, 0⟩ ::
      projectDays df (maxDate df - minDate df + 1).toNat (minDate df)
        starting_balance

/-- The record returned by `calculate_health_metrics`.  `monthly_runway` is a
rational with `none` for the `float('inf')` sentinel; the display rounding
`round(monthly_runway, 1)` of the source is a float-formatting concern and is
not modelled. -/
structure HealthMetrics where
  health_score : Int
  days_until_danger : Option Int
  monthly_runway : Option ℚ
  trend_direction : Int
  min_balance : Int
  current_balance : Int
deriving DecidableEq

/-- `projection_df['balance'].min()` (projection frames are never empty). -/
def minBal : List ProjPoint → Int
  | [] => 0
  | p :: ps => ps.foldl (fun a x => min a x.balance) p.balance

/-- `calculate_health_metrics(projection_df, current_balance)` from
src/app.py. -/
def calculate_health_metrics (today : Int) (projection : List ProjPoint)
    (current_balance : Int) : HealthMetrics :=
  let days_until_danger : Option Int :=
    match projection.find? (fun p => p.balance < 0) with
    | some p => some (p.date - today)
    | none => none
  let monthly_runway : Option ℚ :=
    if 1 < projection.length then
      let monthly_expenses : ℚ :=
        (((projection.map ProjPoint.daily_expenses).sum : Int) : ℚ) /
          (projection.length : ℚ) * 30
      if 0 < monthly_expenses then some ((current_balance : ℚ) / monthly_expenses)
      else none
    else none
  let health_score : Int :=
    match days_until_danger with
    | none => 100
    | some d =>
      if d < 30 then max 0 (d * 2)
      else if d < 60 then 60 + (d - 30)
      else 90
  let trend_direction : Int :=
    if 1 < projection.length then
      let recent := (projection.map ProjPoint.balance).drop (projection.length - 5)
      if 1 < recent.length then recent.getLastD 0 - recent.headD 0 else 0
    else 0
  { health_score := health_score, days_until_danger := days_until_danger,
    monthly_runway := monthly_runway, trend_direction := trend_direction,
    min_balance := minBal projection, current_balance := current_balance }

/-! ## Store layer: calendar dates, persistence, mutation (src/app.py) -/

/-- A calendar date as carried by `datetime.date` (year 1–9999). -/
structure Date where
  year : Nat
  month : Nat
  day : Nat
deriving DecidableEq

/-- Gregorian leap-year rule used by `datetime.date` validation. -/
def isLeap (y : Nat) : Bool :=
  (y % 4 == 0 && y % 100 != 0) || y % 400 == 0

/-- Number of days in a month, as validated by the `datetime.date`
constructor. -/
def daysInMonth (y m : Nat) : Nat :=
  if m == 2 then (if isLeap y then 29 else 28)
  else if m == 4 || m == 6 || m == 9 || m == 11 then 30
  else 31

/-- Validity of a `Date`, matching the `datetime.date` range
(`MINYEAR = 1`, `MAXYEAR = 9999`). -/
def Date.valid (d : Date) : Bool :=
  1 ≤ d.year && d.year ≤ 9999 && 1 ≤ d.month && d.month ≤ 12 &&
    1 ≤ d.day && d.day ≤ daysInMonth d.year d.month

/-- The ASCII digit character for `n % 10`. -/
def digitChar (n : Nat) : Char := Char.ofNat (48 + n % 10)

/-- Numeric value of an ASCII digit character. -/
def digitVal (c : Char) : Nat := c.toNat - 48

/-- Whether a character is an ASCII digit. -/
def isDigitChar (c : Char) : Bool := 48 ≤ c.toNat && c.toNat ≤ 57

/-- `"%02d"` zero-padded rendering for values below 100 (months and days of a
valid date; matches Python for exactly those values). -/
def formatNat2 (n : Nat) : List Char := [digitChar (n / 10), digitChar n]

/-- `"%04d"` zero-padded rendering for values below 10000 (the year of a
valid date). -/
def formatNat4 (n : Nat) : List Char :=
  [digitChar (n / 1000), digitChar (n / 100), digitChar (n / 10), digitChar n]

/-- `str(date)`, i.e. the `YYYY-MM-DD` serialisation applied by
`json.dump(..., default=str)` in `save_data`. -/
def formatDate (dt : Date) : String :=
  String.mk (formatNat4 dt.year ++ '-' :: formatNat2 dt.month ++
    '-' :: formatNat2 dt.day)

/-- `datetime.strptime(s, '%Y-%m-%d').date()` used by `load_data`: exactly
four year digits, two month digits and two day digits separated by dashes,
with calendar validation by the `datetime.date` constructor; any failure
raises (modelled by `none`). -/
def parseDate (s : String) : Option Date :=
  match s.data with
  | [y1, y2, y3, y4, s1, m1, m2, s2, d1, d2] =>
    if s1 == '-' && s2 == '-' &&
        [y1, y2, y3, y4, m1, m2, d1, d2].all isDigitChar then
      let y := ((digitVal y1 * 10 + digitVal y2) * 10 + digitVal y3) * 10 +
        digitVal y4
      let m := digitVal m1 * 10 + digitVal m2
      let d := digitVal d1 * 10 + digitVal d2
      if 1 ≤ y && 1 ≤ m && m ≤ 12 && 1 ≤ d && d ≤ daysInMonth y m then
        some ⟨y, m, d⟩
      else none
    else none
  | _ => none

/-- A transaction row of the in-memory store, with a calendar date (the form
mutated by `add/update/delete` and serialised by `save_data`). -/
structure StoreTxn where
  id : Int
  type : String
  amount : Int
  date : Date
  description : String
  status : String
  probability : Int
deriving DecidableEq

/-- The session state triple
`(transactions_df, current_balance, next_id)`. -/
structure Store where
  transactions : List StoreTxn
  current_balance : Int
  next_id : Int
deriving DecidableEq

/-- A transaction record as it sits in `cashflow_data.json`: identical fields
but the date is a string. -/
structure PersistedTxn where
  id : Int
  type : String
  amount : Int
  date : String
  description : String
  status : String
  probability : Int
deriving DecidableEq

/-- The persisted JSON object
`{transactions, current_balance, next_id}`. -/
structure PersistedData where
  transactions : List PersistedTxn
  current_balance : Int
  next_id : Int
deriving DecidableEq

/-- `save_data()` from src/app.py: dump the store with every date serialised
to its `YYYY-MM-DD` string (`json.dump(..., default=str)`). -/
def save_data (s : Store) : PersistedData :=
  { transactions := s.transactions.map (fun t =>
      ⟨t.id, t.type, t.amount, formatDate t.date, t.description, t.status,
        t.probability⟩),
    current_balance := s.current_balance,
    next_id := s.next_id }

/-- Parse one persisted transaction back (`strptime` on its date field). -/
def parseTxn (t : PersistedTxn) : Option StoreTxn :=
  (parseDate t.date).map (fun d =>
    ⟨t.id, t.type, t.amount, d, t.description, t.status, t.probability⟩)

/-- The date-conversion loop of `load_data`: the first malformed date raises
and aborts the whole load. -/
def parseAll : List PersistedTxn → Option (List StoreTxn)
  | [] => some []
  | t :: ts =>
    match parseTxn t, parseAll ts with
    | some a, some rest => some (a :: rest)
    | _, _ => none

/-- `load_data()` from src/app.py applied to a persisted object: convert all
date strings back to dates; on any exception fall back to the empty default
`([], 0, 1)`. -/
def load_data (p : PersistedData) : Store :=
  match parseAll p.transactions with
  | some ts => ⟨ts, p.current_balance, p.next_id⟩
  | none => ⟨[], 0, 1⟩

/-- `update_transaction(...)` from src/app.py: locate the first row with the
given id via `df[df['id'] == id].index[0]` — an `IndexError` escapes when no
row matches — and overwrite that row. -/
def update_transaction (s : Store) (transaction_id : Int) (trans_type : String)
    (amount : Int) (date : Date) (description : String) (status : String)
    (probability : Int) : Except String Store :=
  match s.transactions.findIdx? (fun t => t.id == transaction_id) with
  | some idx =>
    let row : StoreTxn :=
      ⟨transaction_id, trans_type, amount, date, description, status,
        probability⟩
    Except.ok { s with transactions := s.transactions.set idx row }
  | none => Except.error "IndexError: index 0 is out of bounds for axis 0"

/-- `delete_transaction(...)` from src/app.py: keep the rows whose id
differs; never raises, whether or not the id exists. -/
def delete_transaction (s : Store) (transaction_id : Int) :
    Except String Store :=
  Except.ok
    { s with transactions :=
        s.transactions.filter (fun t => t.id != transaction_id) }

/-! ## Ingestion merge (src/bank_ai.py) -/

/-- An extracted bank transaction, restricted to the fields
`save_to_cashflow_data` actually reads (`type`, `amount` — signed —,
`date` — kept as a string —, `description`). -/
structure BankTxn where
  type : String
  amount : Int
  date : String
  description : String
deriving DecidableEq

/-- The extractor response object: a transaction list plus an optional
`current_balance`. -/
structure ExtractedBatch where
  transactions : List BankTxn
  current_balance : Option Int
deriving DecidableEq

/-- A FlowState transaction at the JSON level, as written by
`save_to_cashflow_data` (date still a string). -/
structure CFTxn where
  id : Int
  type : String
  amount : Int
  date : String
  description : String
  status : String
  probability : Int
deriving DecidableEq

/-- The `cashflow_data.json` content manipulated by
`save_to_cashflow_data`. -/
structure CFData where
  transactions : List CFTxn
  current_balance : Int
  next_id : Int
deriving DecidableEq

/-- `save_to_cashflow_data(transactions)` from src/bank_ai.py, as a pure
function of the existing file content and the extracted batch: append each
incoming transaction converted to FlowState form (absolute amount, status
`confirmed`, probability `100`, sequential ids from `next_id`), overwrite the
balance when the batch carries one, and bump `next_id`. -/
def save_to_cashflow_data (existing : CFData) (batch : ExtractedBatch) :
    CFData :=
  let acc := batch.transactions.foldl
    (fun (acc : List CFTxn × Int) t =>
      (acc.1 ++ [⟨acc.2, t.type, |t.amount|, t.date, t.description,
        "confirmed", 100⟩], acc.2 + 1))
    (existing.transactions, existing.next_id)
  { transactions := acc.1,
    current_balance :=
      match batch.current_balance with
      | some v => v
      | none => existing.current_balance,
    next_id := acc.2 }

/-- Specification-side description of the conversion of one extracted
transaction, given the id it is assigned. -/
def convertBank (i : Int) (t : BankTxn) : CFTxn :=
  ⟨i, t.type, |t.amount|, t.date, t.description, "confirmed", 100⟩

/-- Specification-side description of the whole converted batch: sequential
ids starting at `i`. -/
def convertAll (i : Int) : List BankTxn → List CFTxn
  | [] => []
  | t :: ts => convertBank i t :: convertAll (i + 1) ts

/-! ## Theorems -/

/-- A one-point timeline whose only point is 30 days out with a negative
balance. -/
def dangerProj : List ProjPoint := [⟨30, -5, 0, 0, 0⟩]

/-- C1 counterexample: on a timeline whose first negative-balance point is
30 days from today, the code's health score is 60, not the 90 asserted by
the claim's boundary list. -/
theorem health_score_at_thirty_cex :
    (calculate_health_metrics 0 dangerProj 100).days_until_danger = some 30 ∧
    (calculate_health_metrics 0 dangerProj 100).health_score = 60 ∧
    (calculate_health_metrics 0 dangerProj 100).health_score ≠ 90 := by
  refine ⟨?_, ?_, ?_⟩ <;> decide

/-- C1 (amended): the health score is 100 when no projection point has a
negative balance; otherwise, with `d = days_until_danger`, it is
`max 0 (d * 2)` for `d < 30`, `60 + (d - 30)` for `30 ≤ d < 60`, and 90 for
`60 ≤ d`; the boundary values are `d = 0 → 0`, `d = 29 → 58`, `d = 30 → 60`,
`d = 59 → 89`, `d = 60 → 90`, and no danger date gives 100. -/
theorem health_score_piecewise (today cur : Int) (proj : List ProjPoint) :
    ((∀ p ∈ proj, ¬ (p.balance < 0)) →
      (calculate_health_metrics today proj cur).health_score = 100) ∧
    (∀ d, (calculate_health_metrics today proj cur).days_until_danger = some d →
      (calculate_health_metrics today proj cur).health_score =
        if d < 30 then max 0 (d * 2)
        else if d < 60 then 60 + (d - 30)
        else 90) ∧
    (∀ d, (calculate_health_metrics today proj cur).days_until_danger = some d →
      (d = 0 → (calculate_health_metrics today proj cur).health_score = 0) ∧
      (d = 29 → (calculate_health_metrics today proj cur).health_score = 58) ∧
      (d = 30 → (calculate_health_metrics today proj cur).health_score = 60) ∧
      (d = 59 → (calculate_health_metrics today proj cur).health_score = 89) ∧
      (d = 60 → (calculate_health_metrics today proj cur).health_score = 90)) := by
  have main : ∀ d,
      (calculate_health_metrics today proj cur).days_until_danger = some d →
      (calculate_health_metrics today proj cur).health_score =
        if d < 30 then max 0 (d * 2)
        else if d < 60 then 60 + (d - 30)
        else 90 := by
    intro d hd
    cases hf : proj.find? (fun p => decide (p.balance < 0)) with
    | none => simp [calculate_health_metrics, hf] at hd
    | some p =>
      simp only [calculate_health_metrics, hf] at hd ⊢
      simp only [Option.some.injEq] at hd
      rw [hd]
  refine ⟨?_, main, ?_⟩
  · intro h
    have hf : proj.find? (fun p => decide (p.balance < 0)) = none := by
      rw [List.find?_eq_none]
      intro x hx
      simpa using h x hx
    simp [calculate_health_metrics, hf]
  · intro d hd
    have hs := main d hd
    refine ⟨?_, ?_, ?_, ?_, ?_⟩ <;> intro he <;> rw [hs, he] <;> decide

/-- Timeline used for the C1 witness: first negative point 29 days out. -/
def dangerProj29 : List ProjPoint := [⟨29, -5, 0, 0, 0⟩]

/-- C1 witness: on a concrete timeline with danger 29 days out the amended
formula evaluates to 58. -/
theorem health_score_piecewise_witness :
    (calculate_health_metrics 0 dangerProj29 100).health_score =
      if (29 : Int) < 30 then max 0 (29 * 2)
      else if (29 : Int) < 60 then 60 + (29 - 30)
      else 90 :=
  (health_score_piecewise 0 100 dangerProj29).2.1 29 (by decide)

/-- C9: the health score is always an integer in `[0, 100]`, and whenever
`days_until_danger` is negative (first negative point dated before today)
the score is clamped to 0. -/
theorem health_score_bounds (today cur : Int) (proj : List ProjPoint) :
    (0 ≤ (calculate_health_metrics today proj cur).health_score ∧
      (calculate_health_metrics today proj cur).health_score ≤ 100) ∧
    (∀ d, (calculate_health_metrics today proj cur).days_until_danger = some d →
      d < 0 → (calculate_health_metrics today proj cur).health_score = 0) := by
  cases hf : proj.find? (fun p => decide (p.balance < 0)) with
  | none =>
    constructor
    · constructor <;> simp [calculate_health_metrics, hf]
    · intro d hd
      simp [calculate_health_metrics, hf] at hd
  | some p =>
    constructor
    · simp only [calculate_health_metrics, hf]
      constructor <;> split_ifs <;> omega
    · intro d hd hneg
      simp only [calculate_health_metrics, hf] at hd ⊢
      simp only [Option.some.injEq] at hd
      rw [hd]
      split_ifs <;> omega

/-- Timeline used for the C9 witness: the first negative point lies five
days in the past. -/
def overdueProj : List ProjPoint := [⟨5, -1, 0, 0, 0⟩]

/-- C9 witness: with a danger date five days before today the score is 0. -/
theorem health_score_bounds_witness :
    (calculate_health_metrics 10 overdueProj 100).health_score = 0 :=
  (health_score_bounds 10 100 overdueProj).2 (-5) (by decide) (by decide)

/-- The scenario transformation before the what-if injection: pending income
delayed under "Payment Delays", everything else untouched. -/
def delayedSet (delay_days : Int) (scenario_type : String) (df : List Txn) :
    List Txn :=
  if scenario_type == "Payment Delays" then df.map (delayTxn delay_days)
  else df

/-- C4 counterexample: on the empty transaction set, a positive what-if
amount (500) adds no synthetic transaction — the early empty-DataFrame
return fires first. -/
theorem what_if_empty_cex :
    apply_scenarios 0 [] "Base Case" 0 500 = [] ∧ (0 : Int) < 500 :=
  ⟨rfl, by decide⟩

/-- C4 (amended): with `what_if_expense = 0` the scenario output is a
permutation of the delayed set (no synthetic transaction); with
`what_if_expense > 0` and a non-empty input it is a permutation of the
delayed set plus exactly one synthetic transaction with id 9999, type
`expense`, status `projected`, probability 100, date `today + 3`,
description `"What-If Expense"` and the given amount.  (The function is a
pure snapshot transformation: nothing is written back to the store.) -/
theorem what_if_injection (today delay_days amt : Int) (scenario_type : String)
    (df : List Txn) :
    (amt = 0 → (apply_scenarios today df scenario_type delay_days amt).Perm
      (delayedSet delay_days scenario_type df)) ∧
    (0 < amt → df ≠ [] →
      (apply_scenarios today df scenario_type delay_days amt).Perm
        (delayedSet delay_days scenario_type df ++
          [⟨9999, "expense", amt, today + 3, "What-If Expense", "projected",
            100⟩])) := by
  constructor
  · intro h0
    subst h0
    by_cases he : df = []
    · subst he
      simp [apply_scenarios, delayedSet]
    · have : apply_scenarios today df scenario_type delay_days 0 =
          List.insertionSort (fun a b => a.date ≤ b.date)
            (delayedSet delay_days scenario_type df) := by
        simp [apply_scenarios, delayedSet, List.isEmpty_iff, he]
      rw [this]
      exact List.perm_insertionSort _ _
  · intro hamt he
    have : apply_scenarios today df scenario_type delay_days amt =
        List.insertionSort (fun a b => a.date ≤ b.date)
          (delayedSet delay_days scenario_type df ++ [whatIfTxn today amt]) := by
      simp [apply_scenarios, delayedSet, List.isEmpty_iff, he, hamt]
    rw [this]
    exact List.perm_insertionSort _ _

/-- A sample pending-income transaction. -/
def txnA : Txn := ⟨1, "income", 50, 7, "Invoice", "pending", 80⟩

/-- C4 witness: a concrete non-empty set with amount 500 yields the delayed
set plus exactly the synthetic expense. -/
theorem what_if_injection_witness :
    (apply_scenarios 0 [txnA] "Base Case" 0 500).Perm
      (delayedSet 0 "Base Case" [txnA] ++
        [⟨9999, "expense", 500, 0 + 3, "What-If Expense", "projected", 100⟩]) :=
  (what_if_injection 0 0 500 "Base Case" [txnA]).2 (by decide) (by decide)

/-- C5: "Payment Delays" is content-equal to the input with exactly the
pending-income dates shifted forward by `delay_days`; with `delay_days = 0`
its output coincides with "Base Case". -/
theorem payment_delays (today delay_days : Int) (df : List Txn)
    (hnn : 0 ≤ delay_days) :
    (apply_scenarios today df "Payment Delays" delay_days 0).Perm
      (df.map (fun t =>
        if t.type = "income" ∧ t.status = "pending"
        then { t with date := t.date + delay_days } else t)) ∧
    apply_scenarios today df "Payment Delays" 0 0 =
      apply_scenarios today df "Base Case" 0 0 := by
  have hmap : ∀ t : Txn, delayTxn delay_days t =
      if t.type = "income" ∧ t.status = "pending"
      then { t with date := t.date + delay_days } else t := by
    intro t
    by_cases h1 : t.type = "income" <;> by_cases h2 : t.status = "pending" <;>
      simp [delayTxn, h1, h2]
  have hid0 : ∀ t : Txn, delayTxn 0 t = t := by
    intro t
    cases t with
    | mk i ty am da de st pr => simp [delayTxn]
  have hmap0 : df.map (delayTxn 0) = df :=
    (List.map_congr_left fun t _ => hid0 t).trans (List.map_id df)
  constructor
  · by_cases he : df = []
    · subst he
      simp [apply_scenarios]
    · have : apply_scenarios today df "Payment Delays" delay_days 0 =
          List.insertionSort (fun a b => a.date ≤ b.date)
            (df.map (delayTxn delay_days)) := by
        simp [apply_scenarios, List.isEmpty_iff, he]
      rw [this, List.map_congr_left fun t _ => hmap t]
      exact List.perm_insertionSort _ _
  · by_cases he : df = []
    · subst he
      simp [apply_scenarios]
    · simp [apply_scenarios, List.isEmpty_iff, he, hmap0]

/-- C5 witness: delaying a concrete pending-income transaction by 4 days. -/
theorem payment_delays_witness :
    (apply_scenarios 0 [txnA] "Payment Delays" 4 0).Perm
      ([txnA].map (fun t =>
        if t.type = "income" ∧ t.status = "pending"
        then { t with date := t.date + 4 } else t)) :=
  (payment_delays 0 4 [txnA] (by decide)).1

/-- `delayTxn` never touches the id column. -/
theorem delayTxn_id (k : Int) (t : Txn) : (delayTxn k t).id = t.id := by
  simp only [delayTxn]
  split <;> rfl

/-- C10: with a positive what-if amount the synthetic transaction always
carries the hard-coded id 9999, so whenever the input already contains a
transaction with id 9999 the scenario output holds at least two rows with
that id. -/
theorem duplicate_what_if_id (today delay_days amt : Int)
    (scenario_type : String) (df : List Txn) (t : Txn)
    (ht : t ∈ df) (hid : t.id = 9999) (hamt : 0 < amt) :
    (whatIfTxn today amt).id = 9999 ∧
    whatIfTxn today amt ∈ apply_scenarios today df scenario_type delay_days amt ∧
    2 ≤ (apply_scenarios today df scenario_type delay_days amt).countP
        (fun x => x.id == 9999) := by
  have hne : df ≠ [] := by
    intro h
    subst h
    exact absurd ht (List.not_mem_nil t)
  have hout : apply_scenarios today df scenario_type delay_days amt =
      List.insertionSort (fun a b => a.date ≤ b.date)
        (delayedSet delay_days scenario_type df ++ [whatIfTxn today amt]) := by
    simp [apply_scenarios, delayedSet, List.isEmpty_iff, hne, hamt]
  have hperm : (apply_scenarios today df scenario_type delay_days amt).Perm
      (delayedSet delay_days scenario_type df ++ [whatIfTxn today amt]) := by
    rw [hout]
    exact List.perm_insertionSort _ _
  refine ⟨rfl, ?_, ?_⟩
  · exact hperm.mem_iff.mpr (by simp)
  · rw [hperm.countP_eq]
    rw [List.countP_append]
    have hmem : ∃ a ∈ delayedSet delay_days scenario_type df,
        (fun x : Txn => x.id == 9999) a = true := by
      by_cases hs : (scenario_type == "Payment Delays") = true
      · refine ⟨delayTxn delay_days t, ?_, by simp [delayTxn_id, hid]⟩
        simp only [delayedSet, hs, if_pos]
        exact List.mem_map_of_mem _ ht
      · exact ⟨t, by simp [delayedSet, hs, ht], by simp [hid]⟩
    have h1 : 0 < (delayedSet delay_days scenario_type df).countP
        (fun x => x.id == 9999) := List.countP_pos_iff.mpr hmem
    have h2 : ([whatIfTxn today amt].countP (fun x => x.id == 9999)) = 1 := by
      simp [List.countP_cons, List.countP_nil, whatIfTxn]
    omega

/-- A transaction that already uses the reserved id 9999. -/
def txn9999 : Txn := ⟨9999, "expense", 20, 5, "Fees", "confirmed", 100⟩

/-- C10 witness: a concrete input containing id 9999 plus a positive what-if
amount yields two rows with id 9999. -/
theorem duplicate_what_if_id_witness :
    2 ≤ (apply_scenarios 0 [txn9999] "Base Case" 0 500).countP
        (fun x => x.id == 9999) :=
  (duplicate_what_if_id 0 0 500 "Base Case" [txn9999] txn9999
    (by decide) (by decide) (by decide)).2.2

/-- The dates emitted by the daily loop are the `n` consecutive days starting
at `d`. -/
theorem projectDays_dates (df : List Txn) (n : Nat) : ∀ d b : Int,
    (projectDays df n d b).map ProjPoint.date =
      (List.range n).map (fun i : Nat => d + (i : Int)) := by
  induction n with
  | zero => intro d b; simp [projectDays]
  | succ n ih =>
    intro d b
    rw [List.range_succ_eq_map]
    simp only [projectDays, List.map_cons, List.map_map, Nat.cast_zero,
      add_zero]
    congr 1
    rw [ih (d + 1) (b + (dailyIncome df d - dailyExpenses df d))]
    apply List.map_congr_left
    intro i _
    simp only [Function.comp_apply]
    push_cast
    ring

/-- The daily loop emits exactly `n` points. -/
theorem projectDays_length (df : List Txn) (n : Nat) (d b : Int) :
    (projectDays df n d b).length = n := by
  have h := congrArg List.length (projectDays_dates df n d b)
  simpa using h

/-- The minimum of the date column never exceeds the maximum. -/
theorem minDate_le_maxDate (df : List Txn) : minDate df ≤ maxDate df := by
  cases df with
  | nil => simp [minDate, maxDate]
  | cons t ts =>
    simp only [minDate, maxDate]
    have key : ∀ (l : List Txn) (a b : Int), a ≤ b →
        l.foldl (fun a x => min a x.date) a ≤
          l.foldl (fun a x => max a x.date) b := by
      intro l
      induction l with
      | nil => intro a b h; simpa using h
      | cons x xs ih =>
        intro a b h
        exact ih _ _ (le_trans (min_le_left _ _) (le_trans h (le_max_left _ _)))
    exact key ts t.date t.date le_rfl

/-- C2: for a non-empty transaction set the projection has one leading
today-point followed by one point per calendar day from the minimum to the
maximum date inclusive — `(max - min) + 2` points in total; for the empty
set it is the single today-point with the starting balance. -/
theorem projection_shape (today sb : Int) (df : List Txn) :
    (df = [] → calculate_cash_flow_projection today df sb =
      [⟨today, sb, 0, 0, 0⟩]) ∧
    (df ≠ [] →
      (calculate_cash_flow_projection today df sb).map ProjPoint.date =
        today :: (List.range ((maxDate df - minDate df).toNat + 1)).map
          (fun i : Nat => minDate df + (i : Int)) ∧
      (calculate_cash_flow_projection today df sb).length =
        (maxDate df - minDate df).toNat + 2) := by
  constructor
  · intro he
    simp [calculate_cash_flow_projection, he]
  · intro hne
    have hcount : (maxDate df - minDate df + 1).toNat =
        (maxDate df - minDate df).toNat + 1 := by
      have := minDate_le_maxDate df
      omega
    constructor
    · simp only [calculate_cash_flow_projection, if_neg hne, List.map_cons,
        hcount]
      rw [projectDays_dates]
    · simp only [calculate_cash_flow_projection, if_neg hne, List.length_cons,
        projectDays_length, hcount]

/-- Transaction set used by the projection witnesses. -/
def projDf : List Txn :=
  [⟨1, "income", 5000, 1, "Payment", "confirmed", 100⟩,
   ⟨2, "expense", 2000, 3, "Rent", "confirmed", 100⟩]

/-- C2 witness: a concrete two-transaction set spanning days 1–3 yields the
leading today-point plus three daily points. -/
theorem projection_shape_witness :
    (calculate_cash_flow_projection 0 projDf 1000).map ProjPoint.date =
      0 :: (List.range ((maxDate projDf - minDate projDf).toNat + 1)).map
        (fun i : Nat => minDate projDf + (i : Int)) ∧
    (calculate_cash_flow_projection 0 projDf 1000).length =
      (maxDate projDf - minDate projDf).toNat + 2 :=
  (projection_shape 0 1000 projDf).2 (by decide)

/-- Balance of the `i`-th point of the daily loop: the seed plus the net
flows of the first `i + 1` points. -/
theorem projectDays_balance (df : List Txn) (n : Nat) : ∀ (d b : Int) (i : Nat),
    i < n →
    ((projectDays df n d b).getD i pdef).balance =
      b + (((projectDays df n d b).take (i + 1)).map ProjPoint.net_flow).sum := by
  induction n with
  | zero => intro d b i hi; omega
  | succ n ih =>
    intro d b i hi
    cases i with
    | zero =>
      simp [projectDays]
    | succ j =>
      simp only [projectDays, List.getD_cons_succ, List.take_succ_cons,
        List.map_cons, List.sum_cons]
      rw [ih (d + 1) (b + (dailyIncome df d - dailyExpenses df d)) j
        (by omega)]
      ring

/-- Every point of the daily loop satisfies
`net_flow = daily_income - daily_expenses`. -/
theorem projectDays_netflow (df : List Txn) (n : Nat) : ∀ (d b : Int) (p : ProjPoint),
    p ∈ projectDays df n d b →
    p.net_flow = p.daily_income - p.daily_expenses := by
  induction n with
  | zero => intro d b p hp; simp [projectDays] at hp
  | succ n ih =>
    intro d b p hp
    simp only [projectDays, List.mem_cons] at hp
    cases hp with
    | inl h => subst h; rfl
    | inr h => exact ih _ _ p h

/-- C3: the leading point's balance is the starting balance, and every daily
point `i` (the tail of the projection) has
`balance = starting_balance + sum of the net flows of the daily points up to
and including i`, with `net_flow = daily_income - daily_expenses` on each
daily point. -/
theorem projection_balance_cumulative (today sb : Int) (df : List Txn) :
    ((calculate_cash_flow_projection today df sb).headD pdef).balance = sb ∧
    (∀ i, i < (calculate_cash_flow_projection today df sb).tail.length →
      (((calculate_cash_flow_projection today df sb).tail.getD i pdef).balance =
        sb + ((((calculate_cash_flow_projection today df sb).tail.take (i + 1)).map
          ProjPoint.net_flow)).sum ∧
      ((calculate_cash_flow_projection today df sb).tail.getD i pdef).net_flow =
        ((calculate_cash_flow_projection today df sb).tail.getD i pdef).daily_income -
          ((calculate_cash_flow_projection today df sb).tail.getD i pdef).daily_expenses)) := by
  by_cases he : df = []
  · subst he
    constructor
    · simp [calculate_cash_flow_projection]
    · intro i hi
      simp [calculate_cash_flow_projection] at hi
  · have htail : (calculate_cash_flow_projection today df sb).tail =
        projectDays df (maxDate df - minDate df + 1).toNat (minDate df) sb := by
      simp [calculate_cash_flow_projection, he]
    constructor
    · simp [calculate_cash_flow_projection, he]
    · intro i hi
      rw [htail] at hi ⊢
      rw [projectDays_length] at hi
      constructor
      · exact projectDays_balance df _ _ _ i hi
      · have hmem : (projectDays df (maxDate df - minDate df + 1).toNat
            (minDate df) sb).getD i pdef ∈
            projectDays df (maxDate df - minDate df + 1).toNat (minDate df) sb := by
          rw [List.getD_eq_getElem?_getD]
          rw [List.getElem?_eq_getElem (by rw [projectDays_length]; exact hi)]
          exact List.getElem_mem _
        exact projectDays_netflow df _ _ _ _ hmem

/-- C3 witness: on the concrete two-transaction set, daily point 2 (day 3)
carries balance `1000 + 5000 - 2000`. -/
theorem projection_balance_cumulative_witness :
    ((calculate_cash_flow_projection 0 projDf 1000).tail.getD 2 pdef).balance =
      1000 + (((calculate_cash_flow_projection 0 projDf 1000).tail.take 3).map
        ProjPoint.net_flow).sum :=
  ((projection_balance_cumulative 0 1000 projDf).2 2 (by decide)).1

/-- A store with one transaction (id 1) used for concrete check cases. -/
def c6store : Store :=
  ⟨[⟨1, "income", 100, ⟨2025, 1, 3⟩, "Pay", "confirmed", 100⟩], 500, 2⟩

/-- C6 counterexample: deleting the unknown id 42 completes with a success
value and an unchanged store — no error is reported, contrary to the
claim. -/
theorem delete_unknown_id_cex :
    delete_transaction c6store 42 = Except.ok c6store ∧
    c6store.transactions.all (fun t => t.id != 42) = true := by
  constructor
  · rfl
  · decide

/-- C6 (amended): on an id absent from the store, `update_transaction`
raises (reported error, store untouched), while `delete_transaction`
completes silently with the store unchanged. -/
theorem unknown_id_mutations (s : Store) (tid : Int) (trans_type : String)
    (amount : Int) (date : Date) (description : String) (status : String)
    (probability : Int) (h : ∀ t ∈ s.transactions, t.id ≠ tid) :
    update_transaction s tid trans_type amount date description status
        probability =
      Except.error "IndexError: index 0 is out of bounds for axis 0" ∧
    delete_transaction s tid = Except.ok s := by
  constructor
  · have hf : s.transactions.findIdx? (fun t => t.id == tid) = none := by
      rw [List.findIdx?_eq_none_iff]
      intro x hx
      simpa using h x hx
    simp [update_transaction, hf]
  · have hfil : s.transactions.filter (fun t => t.id != tid) =
        s.transactions := by
      rw [List.filter_eq_self]
      intro a ha
      simpa using h a ha
    simp [delete_transaction, hfil]

/-- C6 witness: the amended behaviour on the concrete store and id 42. -/
theorem unknown_id_mutations_witness :
    update_transaction c6store 42 "income" 1 ⟨2025, 1, 1⟩ "X" "confirmed"
        100 =
      Except.error "IndexError: index 0 is out of bounds for axis 0" ∧
    delete_transaction c6store 42 = Except.ok c6store :=
  unknown_id_mutations c6store 42 "income" 1 ⟨2025, 1, 1⟩ "X" "confirmed" 100
    (by decide)

/-- Invariant of the ingestion fold: it appends the converted batch with
sequential ids and advances the counter by the batch length. -/
theorem mergeLoop (l : List BankTxn) : ∀ (acc : List CFTxn) (n : Int),
    l.foldl (fun (acc : List CFTxn × Int) t =>
      (acc.1 ++ [⟨acc.2, t.type, |t.amount|, t.date, t.description,
        "confirmed", 100⟩], acc.2 + 1)) (acc, n) =
    (acc ++ convertAll n l, n + l.length) := by
  induction l with
  | nil => intro acc n; simp [convertAll]
  | cons t ts ih =>
    intro acc n
    rw [List.foldl_cons, ih]
    simp only [convertAll, convertBank, Prod.mk.injEq, List.append_assoc,
      List.singleton_append, List.length_cons]
    constructor
    · trivial
    · push_cast
      ring

/-- C7: the ingestion merge is purely additive — the new transaction list is
the old one with the converted batch appended, where each converted
transaction takes the absolute amount, status `confirmed`, probability 100
and a sequential id starting at the store's `next_id`; `next_id` advances by
the batch length and the balance is overwritten exactly when the batch
carries one. -/
theorem ingestion_merge (existing : CFData) (batch : ExtractedBatch) :
    (save_to_cashflow_data existing batch).transactions =
      existing.transactions ++ convertAll existing.next_id batch.transactions ∧
    (save_to_cashflow_data existing batch).next_id =
      existing.next_id + batch.transactions.length ∧
    (save_to_cashflow_data existing batch).current_balance =
      (match batch.current_balance with
       | some v => v
       | none => existing.current_balance) := by
  have hfold := mergeLoop batch.transactions existing.transactions
    existing.next_id
  refine ⟨?_, ?_, ?_⟩ <;> simp [save_to_cashflow_data, hfold]

/-- A digit character decodes to the encoded digit. -/
theorem toNat_ofNat_digit (k : Nat) (hk : k < 10) :
    (Char.ofNat (48 + k)).toNat = 48 + k := by
  interval_cases k <;> decide

/-- `digitVal` inverts `digitChar`. -/
theorem digitVal_digitChar (n : Nat) : digitVal (digitChar n) = n % 10 := by
  have h : n % 10 < 10 := Nat.mod_lt _ (by decide)
  simp [digitVal, digitChar, toNat_ofNat_digit _ h]

/-- `digitChar` always produces an ASCII digit. -/
theorem isDigitChar_digitChar (n : Nat) : isDigitChar (digitChar n) = true := by
  have h : n % 10 < 10 := Nat.mod_lt _ (by decide)
  simp only [isDigitChar, digitChar, toNat_ofNat_digit _ h, Bool.and_eq_true,
    decide_eq_true_eq]
  omega

/-- Parsing inverts formatting on every valid calendar date. -/
theorem parseDate_formatDate (dt : Date) (h : dt.valid = true) :
    parseDate (formatDate dt) = some dt := by
  obtain ⟨y, m, d⟩ := dt
  simp only [Date.valid, Bool.and_eq_true, decide_eq_true_eq] at h
  obtain ⟨⟨⟨⟨⟨hy1, hy2⟩, hm1⟩, hm2⟩, hd1⟩, hd2⟩ := h
  have hdm : daysInMonth y m ≤ 31 := by
    simp only [daysInMonth]
    split_ifs <;> omega
  have hy : ((y / 1000 % 10 * 10 + y / 100 % 10) * 10 + y / 10 % 10) * 10 +
      y % 10 = y := by omega
  have hm : m / 10 % 10 * 10 + m % 10 = m := by omega
  have hd : d / 10 % 10 * 10 + d % 10 = d := by omega
  simp only [formatDate, formatNat4, formatNat2, List.cons_append,
    List.nil_append, parseDate, List.all_cons, List.all_nil,
    isDigitChar_digitChar, digitVal_digitChar, Bool.and_true, Bool.and_self,
    beq_self_eq_true, Bool.true_and, if_true]
  rw [hy, hm, hd]
  simp only [hy1, hy2, hm1, hm2, hd1, hd2, decide_True, Bool.and_self,
    Bool.true_and, if_true]

/-- On a saved store every date string parses back to its source
transaction. -/
theorem parseAll_save (l : List StoreTxn)
    (h : ∀ t ∈ l, t.date.valid = true) :
    parseAll (l.map (fun t => ⟨t.id, t.type, t.amount, formatDate t.date,
      t.description, t.status, t.probability⟩)) = some l := by
  induction l with
  | nil => simp [parseAll]
  | cons t ts ih =>
    simp only [List.map_cons, parseAll, parseTxn]
    rw [parseDate_formatDate t.date (h t (by simp))]
    rw [ih (fun x hx => h x (by simp [hx]))]
    rfl

/-- C8: saving the store and loading it back (no mutation in between)
reproduces the identical transaction set, balance and id counter, provided
every stored date is a valid calendar date. -/
theorem save_load_roundtrip (s : Store)
    (h : ∀ t ∈ s.transactions, t.date.valid = true) :
    load_data (save_data s) = s := by
  simp only [load_data, save_data]
  rw [parseAll_save s.transactions h]

/-- Store with a leap-day transaction for the C8 witness. -/
def c8store : Store :=
  ⟨[⟨1, "income", 100, ⟨2024, 2, 29⟩, "Pay", "confirmed", 100⟩,
    ⟨2, "expense", 40, ⟨2025, 12, 31⟩, "Rent", "pending", 90⟩], 500, 3⟩

/-- C8 witness: the round trip on a concrete store (including a leap-day
date). -/
theorem save_load_roundtrip_witness : load_data (save_data c8store) = c8store :=
  save_load_roundtrip c8store (by decide)
